import Mathlib

/-!
Verification of the AWS provisioning workflow `src/awscloud/MosoInterior.py`
against its specification, via a shallow embedding: every cloud-provider call
(boto3), the IP-echo HTTP call, and the local filesystem are modelled as
explicit oracle inputs, and functions return both their value and a trace of
the externally visible calls or effects they issue.
-/

namespace MosoInterior

/-! Configurable naming constants (MosoInterior.py lines 24-35). -/

def TEMPLATE_NAME : String := "MosoInterior"

def KEY_NAME : String := TEMPLATE_NAME ++ "-key"

def KEY_FILE : String := KEY_NAME ++ ".pem"

def EC2_SG_NAME : String := TEMPLATE_NAME ++ "-sg-ec2"

def ALB_SG_NAME : String := TEMPLATE_NAME ++ "-sg-alb"

def ALB_NAME : String := TEMPLATE_NAME ++ "-ALB"

def TG_NAME : String := TEMPLATE_NAME ++ "-tg"

def INSTANCE_NAME : String := TEMPLATE_NAME ++ "-web-1"

def HTTP_PORT : Nat := 80

def SSH_PORT : Nat := 22

/-- Python `str.strip()` with no argument: remove leading and trailing
whitespace characters, modelled on the string's character list. -/
def pyStrip (s : String) : String :=
  ⟨((s.data.dropWhile Char.isWhitespace).reverse.dropWhile Char.isWhitespace).reverse⟩

/-- Embeds `get_my_public_ip` (lines 45-55).  The HTTP GET to the IP-echo
service is modelled by the oracle `http`: `Except.ok body` is a successful
response body, `Except.error e` any exception raised by the request (network
error, timeout, ...).  Python `str.strip()` is modelled by `pyStrip`;
`'/' not in ip` by `ip.data.contains '/'` being false.  The function is
total: the `try/except Exception` wrapper means it never raises.  Returns
the CIDR string together with whether the insecure-default warning was
printed. -/
def get_my_public_ip (http : Except String String) : String × Bool :=
  match http with
  | Except.ok body =>
      let ip := pyStrip body
      let ip := if ip.data.contains '/' then ip else ip ++ "/32"
      (ip, false)
  | Except.error _ => ("0.0.0.0/0", true)

/-- Embeds `get_default_vpc` (lines 57-62).  `vpcs` is the `Vpcs` list (each
entry its `VpcId`) returned by `describe_vpcs` with the `isDefault=true`
filter.  `Except.error` models the raised `SystemExit`. -/
def get_default_vpc (vpcs : List String) : Except String String :=
  match vpcs with
  | [] => Except.error "No default VPC found in region. Script expects a default VPC."
  | v :: _ => Except.ok v

/-- Embeds `get_subnets_for_vpc` (lines 64-69).  `subnets` is the `Subnets`
list (each entry its `SubnetId`) returned by `describe_subnets` filtered on
the VPC id.  `Except.error` models the raised `SystemExit`. -/
def get_subnets_for_vpc (subnets : List String) : Except String (List String) :=
  if subnets.isEmpty then Except.error "No subnets found in default VPC."
  else Except.ok subnets

/-- Outcome of the `describe_key_pairs(KeyNames=[key_name])` lookup in
`create_keypair_if_not_exists`: success, a `ClientError` with code
`InvalidKeyPair.NotFound`, or any other `ClientError`. -/
inductive KeyPairLookup where
  | found
  | notFoundError
  | otherClientError (msg : String)
deriving DecidableEq, Repr

/-- Externally visible effects of `create_keypair_if_not_exists`: the warning
printed when the remote key exists but the local file is missing, the
`create_key_pair` provider call, the private-key file written through
`os.open(..., os.O_WRONLY | os.O_CREAT, mode)`, and the final `os.chmod`. -/
inductive KpEffect where
  | warnLocalMissing
  | createKeyPair (name : String)
  | writeFileWithMode (path : String) (mode : Nat) (content : String)
  | chmod (path : String) (mode : Nat)
deriving DecidableEq, Repr

/-- Embeds `create_keypair_if_not_exists` (lines 71-94).  `lookup` is the
outcome of `describe_key_pairs`, `localExists` the value of
`os.path.exists(key_file_path)`, and `keyMaterial` the `KeyMaterial` the
provider would return from `create_key_pair`.  Returns the ordered list of
effects performed, or `Except.error` when the lookup error is re-raised. -/
def create_keypair_if_not_exists (lookup : KeyPairLookup) (localExists : Bool)
    (keyMaterial : String) (key_name key_file_path : String) :
    Except String (List KpEffect) :=
  match lookup with
  | KeyPairLookup.found =>
      if localExists then Except.ok []
      else Except.ok [KpEffect.warnLocalMissing]
  | KeyPairLookup.otherClientError e => Except.error e
  | KeyPairLookup.notFoundError =>
      Except.ok [KpEffect.createKeyPair key_name,
                 KpEffect.writeFileWithMode key_file_path 0o600 keyMaterial,
                 KpEffect.chmod key_file_path 0o400]

/-- An entry of the `ingress_rules` argument of `create_security_group`: a
Python dict with keys `IpProtocol` (optional, default `"tcp"`), `FromPort`,
`ToPort` and `CidrIps` (absent modelled as `[]`, matching `.get(..., [])`). -/
structure IngressRule where
  ipProtocol : Option String
  fromPort : Nat
  toPort : Nat
  cidrIps : List String
deriving DecidableEq, Repr

/-- An entry of the `IpPermissions` list passed to
`authorize_security_group_ingress`; `ipRanges` holds the `CidrIp` of each
element of the `IpRanges` list. -/
structure IpPermission where
  ipProtocol : String
  fromPort : Nat
  toPort : Nat
  ipRanges : List String
deriving DecidableEq, Repr

/-- The permission dict built from one ingress rule in the loop at
lines 108-114. -/
def toIpPermission (rule : IngressRule) : IpPermission :=
  { ipProtocol := rule.ipProtocol.getD "tcp"
    fromPort := rule.fromPort
    toPort := rule.toPort
    ipRanges := rule.cidrIps }

/-- Provider calls issued by `create_security_group`. -/
inductive SgCall where
  | createSecurityGroup (description groupName vpcId : String)
  | authorizeSecurityGroupIngress (groupId : String) (perms : List IpPermission)
deriving DecidableEq, Repr

/-- Embeds `create_security_group` (lines 96-117).  `existing` is the
`SecurityGroups` list (each entry its `GroupId`) returned by
`describe_security_groups` filtered on `group-name` and `vpc-id`;
`newGroupId` is the `GroupId` the provider would assign on creation.
Returns the resulting group id together with the list of provider calls
issued, in order. -/
def create_security_group (existing : List String) (newGroupId : String)
    (vpc_id group_name description : String) (ingress_rules : List IngressRule) :
    String × List SgCall :=
  match existing with
  | sgId :: _ => (sgId, [])
  | [] =>
      let permissions := ingress_rules.map toIpPermission
      (newGroupId,
        [SgCall.createSecurityGroup description group_name vpc_id,
         SgCall.authorizeSecurityGroupIngress newGroupId permissions])

/-- Result of `wait_for_targets_healthy`: the returned boolean, the number of
`describe_target_health` calls issued, and the number of `time.sleep(6)`
calls performed. -/
structure WaitResult where
  healthy : Bool
  probes : Nat
  sleeps : Nat
deriving DecidableEq, Repr

/-- The `while elapsed < timeout_seconds` loop of `wait_for_targets_healthy`
(lines 229-241).  `probe k` is the `State` string of the first entry of
`TargetHealthDescriptions` in the k-th `describe_target_health` response
(`none` when that list is empty).  `k` counts the iterations already
performed, so at entry `k` probes and `k` sleeps have happened.  When a probe
reports `"healthy"` the loop returns immediately, before sleeping. -/
def waitLoop (probe : Nat → Option String) (timeout_seconds elapsed k : Nat) :
    WaitResult :=
  if elapsed < timeout_seconds then
    match probe k with
    | some state =>
        if state = "healthy" then ⟨true, k + 1, k⟩
        else waitLoop probe timeout_seconds (elapsed + 6) (k + 1)
    | none => waitLoop probe timeout_seconds (elapsed + 6) (k + 1)
  else ⟨false, k, k⟩
termination_by timeout_seconds - elapsed
decreasing_by all_goals omega

/-- Embeds `wait_for_targets_healthy` (lines 227-241): the loop starts with
`elapsed = 0`.  The Python parameter `timeout_seconds` is a non-negative
integer here (the script always passes 240). -/
def wait_for_targets_healthy (probe : Nat → Option String)
    (timeout_seconds : Nat) : WaitResult :=
  waitLoop probe timeout_seconds 0 0

/-- An element of the `Images` list of a `describe_images` response, with the
fields `find_amzn2023_ami` reads.  `creationDate`/`name` are `Option` because
the code accesses them with `.get`. -/
structure Image where
  imageId : String
  name : Option String
  creationDate : Option String
deriving DecidableEq, Repr

/-- The sort key `lambda i: i.get('CreationDate','')` (line 146). -/
def imageSortKey (i : Image) : String := i.creationDate.getD ""

/-- The ordered name-pattern fallback list (line 126). -/
def name_patterns : List String :=
  ["*amzn-2023*", "*Amazon-Linux-2023*", "*amzn2023*", "*al2023*", "*amazon-linux-2023*"]

/-- The pattern loop of `find_amzn2023_ami` (lines 127-133): `describeImages
pat` is the `Images` list of `describe_images` for pattern `pat`
(`Except.error` when the call raises, in which case the pattern is skipped
by `continue`); results are accumulated with `images += ...` in pattern
order. -/
def collectImages (describeImages : String → Except String (List Image)) :
    List Image :=
  name_patterns.foldl
    (fun images pat =>
      match describeImages pat with
      | Except.ok resp => images ++ resp
      | Except.error _ => images)
    []

/-- Python string `<`: lexicographic comparison of the two character lists
by code point. -/
def pyStrLt : List Char → List Char → Bool
  | _, [] => false
  | [], _ :: _ => true
  | c :: cs, d :: ds =>
      if c.toNat < d.toNat then true
      else if d.toNat < c.toNat then false
      else pyStrLt cs ds

/-- Python string `<=`: `s <= t` iff not `t < s`. -/
def pyStrLe (s t : String) : Bool := !pyStrLt t.data s.data

theorem pyStrLt_asymm : ∀ x y : List Char, pyStrLt x y = true → pyStrLt y x = false := by
  intro x
  induction x with
  | nil =>
      intro y h
      cases y with
      | nil => simp [pyStrLt] at h
      | cons d ds => rfl
  | cons c cs ih =>
      intro y h
      cases y with
      | nil => simp [pyStrLt] at h
      | cons d ds =>
          simp only [pyStrLt] at h ⊢
          split_ifs at h ⊢ <;> try omega
          all_goals first
            | rfl
            | exact ih ds h

theorem pyStrLt_false_trans :
    ∀ x y z : List Char, pyStrLt y x = false → pyStrLt z y = false →
      pyStrLt z x = false := by
  intro x
  induction x with
  | nil =>
      intro y z h1 h2
      cases z <;> rfl
  | cons a as ih =>
      intro y z h1 h2
      cases y with
      | nil => simp [pyStrLt] at h1
      | cons b bs =>
          cases z with
          | nil => simp [pyStrLt] at h2
          | cons c cs =>
              simp only [pyStrLt] at h1 h2 ⊢
              split_ifs at h1 h2 ⊢ <;> try omega
              all_goals first
                | rfl
                | exact ih bs cs h1 h2

/-- The comparison realised by `sorted(images, key=lambda i:
i.get('CreationDate',''), reverse=True)`: `i` may come before `j` iff the key
of `j` is at most the key of `i` under Python string comparison
(descending). -/
def imageOrder (i j : Image) : Prop :=
  pyStrLe (imageSortKey j) (imageSortKey i) = true

instance : DecidableRel imageOrder :=
  fun i j =>
    inferInstanceAs (Decidable (pyStrLe (imageSortKey j) (imageSortKey i) = true))

instance : IsTotal Image imageOrder := by
  constructor
  intro i j
  by_cases h : pyStrLt (imageSortKey i).data (imageSortKey j).data = true
  · right
    simp only [imageOrder, pyStrLe, Bool.not_eq_true']
    exact pyStrLt_asymm _ _ h
  · left
    simp only [imageOrder, pyStrLe, Bool.not_eq_true']
    exact Bool.not_eq_true _ ▸ h

instance : IsTrans Image imageOrder := by
  constructor
  intro i j k h1 h2
  simp only [imageOrder, pyStrLe, Bool.not_eq_true'] at h1 h2 ⊢
  exact pyStrLt_false_trans (imageSortKey k).data (imageSortKey j).data
    (imageSortKey i).data h2 h1

/-- The list `sorted(images, key=lambda i: i.get('CreationDate',''),
reverse=True)` of line 146.  Python `sorted` is a stable sort, and
`reverse=True` reverses the comparison while keeping equal-key elements in
original order; `List.insertionSort` is stable with the same tie behaviour. -/
def sortedImages (images : List Image) : List Image :=
  List.insertionSort imageOrder images

/-- How `find_amzn2023_ami` returns: an `ImageId` picked from the pooled
pattern matches, the value of the SSM-parameter fallback, or the raised
`SystemExit`. -/
inductive AmiOutcome where
  | fromImages (ami_id : String)
  | fromSsmFallback (value : String)
  | systemExit (msg : String)
deriving DecidableEq, Repr

/-- True exactly on the `systemExit` outcome. -/
def AmiOutcome.isSystemExit : AmiOutcome → Bool
  | AmiOutcome.systemExit _ => true
  | _ => false

/-- Embeds `find_amzn2023_ami` (lines 119-149).  `ssmParameter` is the
outcome of `ssm.get_parameter(Name="/aws/service/ami-amazon-linux-latest/amzn2-ami-hvm-x86_64-gp2")`:
`Except.ok` its `Parameter.Value`, `Except.error` a raised exception.
Returns the outcome together with the number of SSM `get_parameter` calls
issued. -/
def find_amzn2023_ami (describeImages : String → Except String (List Image))
    (ssmParameter : Except String String) : AmiOutcome × Nat :=
  let images := collectImages describeImages
  if images.isEmpty then
    match ssmParameter with
    | Except.ok v => (AmiOutcome.fromSsmFallback v, 1)
    | Except.error e =>
        (AmiOutcome.systemExit ("Failed to find AL2023 or fallback AMI. Error: " ++ e), 1)
  else
    (AmiOutcome.fromImages (((sortedImages images).headD ⟨"", none, none⟩).imageId), 0)

/-- The `images[0]` element selected at line 147, as a whole record
(`find_amzn2023_ami` only returns its `ImageId`): the head of the
descending-sorted pool, or `none` when the pool is empty and the SSM
fallback is taken instead. -/
def selected_image (describeImages : String → Except String (List Image)) :
    Option Image :=
  let images := collectImages describeImages
  if images.isEmpty then none
  else some ((sortedImages images).headD ⟨"", none, none⟩)

/-- The `ingress_rules` argument of the first `create_security_group` call in
`main` (lines 259-262): SSH from the caller's CIDR, HTTP from anywhere.
`IpProtocol` is absent from both dicts, so it defaults to `"tcp"`. -/
def ec2_ingress_rules (my_ip_cidr : String) : List IngressRule :=
  [⟨none, SSH_PORT, SSH_PORT, [my_ip_cidr]⟩,
   ⟨none, HTTP_PORT, HTTP_PORT, ["0.0.0.0/0"]⟩]

/-- The `ingress_rules` argument of the second `create_security_group` call in
`main` (lines 271-273): HTTP from anywhere. -/
def alb_ingress_rules : List IngressRule :=
  [⟨none, HTTP_PORT, HTTP_PORT, ["0.0.0.0/0"]⟩]

/-- One run's worth of external-world responses, read off in program order by
`main`.  Each field is the oracle for one provider call (or local check) the
script performs. -/
structure AwsEnv where
  /-- Response of the IP-echo HTTP GET. -/
  http : Except String String
  /-- `VpcId`s of the `describe_vpcs(isDefault=true)` response. -/
  defaultVpcs : List String
  /-- `SubnetId`s of the `describe_subnets` response for a VPC. -/
  subnetsByVpc : String → List String
  /-- Outcome of `describe_key_pairs(KeyNames=[KEY_NAME])`. -/
  keypairLookup : KeyPairLookup
  /-- `os.path.exists(KEY_FILE)`. -/
  localKeyExists : Bool
  /-- `KeyMaterial` returned by `create_key_pair`, were it called. -/
  keyMaterial : String
  /-- Existing `GroupId`s by group name (the filtered `describe_security_groups`
  response in the default VPC). -/
  existingSgs : String → List String
  /-- `GroupId` assigned by `create_security_group`, by group name. -/
  newSgId : String → String
  /-- `describe_images` response per name pattern. -/
  describeImages : String → Except String (List Image)
  /-- SSM `get_parameter` outcome for the Amazon Linux 2 fallback. -/
  ssmParameter : Except String String
  /-- Instance id once running, or the exception raised anywhere in the
  `ec2.create_instances` / `wait_until_running` / `reload` block. -/
  runInstance : Except String String
  /-- Target-health probe sequence (see `waitLoop`). -/
  probe : Nat → Option String
  /-- ARNs / DNS name the ELBv2 creation calls would return (consumed only by
  status prints, so modelled as plain oracle strings). -/
  tgArn : String
  albArn : String
  albDns : String
  listenerArn : String

/-- How the process ends: exit code 0 after the final success prints,
`sys.exit(1)` from the instance-creation `except` block, an uncaught
`SystemExit` (non-zero exit), or any other uncaught exception (non-zero
exit). -/
inductive ExitOutcome where
  | success
  | exitFailure
  | fatalSystemExit (msg : String)
  | uncaughtError (msg : String)
deriving DecidableEq, Repr

/-- Observable outcome of one `main` run: the process exit and whether the
advisory line `"Target didn't become healthy yet ..."` was printed. -/
structure MainRun where
  outcome : ExitOutcome
  healthAdvisory : Bool
deriving DecidableEq, Repr

/-- Embeds `main` (lines 243-399) over the oracle environment, in program
order: public IP, default VPC, subnets, key pair, the two security groups,
AMI lookup, instance launch (its `try/except` exits with code 1 on any
failure), target group, ALB, listener, target registration, then the
best-effort health wait with `timeout_seconds=240` whose failure only prints
an advisory before the success prints.  The opaque `user_data` shell payload
is a string constant with no observable effect here and is not modelled. -/
def main (env : AwsEnv) : MainRun :=
  let my_ip_cidr := (get_my_public_ip env.http).1
  match get_default_vpc env.defaultVpcs with
  | Except.error msg => ⟨ExitOutcome.fatalSystemExit msg, false⟩
  | Except.ok vpc_id =>
    match get_subnets_for_vpc (env.subnetsByVpc vpc_id) with
    | Except.error msg => ⟨ExitOutcome.fatalSystemExit msg, false⟩
    | Except.ok subnet_ids =>
      match create_keypair_if_not_exists env.keypairLookup env.localKeyExists
          env.keyMaterial KEY_NAME KEY_FILE with
      | Except.error e => ⟨ExitOutcome.uncaughtError e, false⟩
      | Except.ok _ =>
        let _ec2_sg_id := (create_security_group (env.existingSgs EC2_SG_NAME)
          (env.newSgId EC2_SG_NAME) vpc_id EC2_SG_NAME
          ("Security group for EC2 (" ++ TEMPLATE_NAME ++ ")")
          (ec2_ingress_rules my_ip_cidr)).1
        let _alb_sg_id := (create_security_group (env.existingSgs ALB_SG_NAME)
          (env.newSgId ALB_SG_NAME) vpc_id ALB_SG_NAME
          ("Security group for ALB (" ++ TEMPLATE_NAME ++ ")")
          alb_ingress_rules).1
        match find_amzn2023_ami env.describeImages env.ssmParameter with
        | (AmiOutcome.systemExit msg, _) => ⟨ExitOutcome.fatalSystemExit msg, false⟩
        | (_, _) =>
          let _chosen_subnet := subnet_ids.headD ""
          match env.runInstance with
          | Except.error _ => ⟨ExitOutcome.exitFailure, false⟩
          | Except.ok _instance_id =>
            let _tg_arn := env.tgArn
            let _alb := (env.albArn, env.albDns)
            let _listener_arn := env.listenerArn
            let healthy := (wait_for_targets_healthy env.probe 240).healthy
            ⟨ExitOutcome.success, !healthy⟩

/-! ## Claim theorems -/

/-- C1: for every run in which a security group with the given name already
exists in the target VPC (the filtered describe result is non-empty),
`create_security_group` performs zero `create_security_group` and zero
`authorize_security_group_ingress` provider calls and returns the id of the
existing group; when no such group exists, it creates the group with the
given description, then issues exactly one batched ingress-authorization
call covering all given rules, and returns the new group's id. -/
theorem create_security_group_reuse_or_create
    (existing : List String) (newGroupId vpc_id group_name description : String)
    (rules : List IngressRule) :
    (∀ sgId rest, existing = sgId :: rest →
      create_security_group existing newGroupId vpc_id group_name description rules
        = (sgId, [])) ∧
    (existing = [] →
      create_security_group existing newGroupId vpc_id group_name description rules
        = (newGroupId,
            [SgCall.createSecurityGroup description group_name vpc_id,
             SgCall.authorizeSecurityGroupIngress newGroupId
               (rules.map toIpPermission)])) := by
  constructor
  · intro sgId rest h
    subst h
    rfl
  · intro h
    subst h
    rfl

/-- Witness for C1 at concrete inputs: one run with an existing group, one
run creating the group and batching both rules in one authorize call. -/
theorem create_security_group_reuse_or_create_witness :
    (["sg-0aa"] : List String) = "sg-0aa" :: [] ∧
    create_security_group ["sg-0aa"] "sg-1bb" "vpc-1" "MosoInterior-sg-ec2" "d"
        [⟨none, 22, 22, ["1.2.3.4/32"]⟩] = ("sg-0aa", []) ∧
    ([] : List String) = [] ∧
    create_security_group [] "sg-1bb" "vpc-1" "MosoInterior-sg-ec2" "d"
        [⟨none, 22, 22, ["1.2.3.4/32"]⟩, ⟨none, 80, 80, ["0.0.0.0/0"]⟩]
      = ("sg-1bb",
          [SgCall.createSecurityGroup "d" "MosoInterior-sg-ec2" "vpc-1",
           SgCall.authorizeSecurityGroupIngress "sg-1bb"
             [⟨"tcp", 22, 22, ["1.2.3.4/32"]⟩, ⟨"tcp", 80, 80, ["0.0.0.0/0"]⟩]]) :=
  ⟨rfl,
   (create_security_group_reuse_or_create ["sg-0aa"] "sg-1bb" "vpc-1"
      "MosoInterior-sg-ec2" "d" [⟨none, 22, 22, ["1.2.3.4/32"]⟩]).1 "sg-0aa" [] rfl,
   rfl,
   (create_security_group_reuse_or_create [] "sg-1bb" "vpc-1"
      "MosoInterior-sg-ec2" "d"
      [⟨none, 22, 22, ["1.2.3.4/32"]⟩, ⟨none, 80, 80, ["0.0.0.0/0"]⟩]).2 rfl⟩

/-- C2: when the remote key pair exists and the local private-key file exists,
`create_keypair_if_not_exists` performs no effect at all (zero
`create_key_pair` calls, no file write, no chmod, no warning) and returns
normally; when the remote key exists but the local file does not, it emits
exactly the warning and still performs zero create calls and no file
modification. -/
theorem create_keypair_reuse_no_create
    (keyMaterial key_name key_file_path : String) :
    create_keypair_if_not_exists KeyPairLookup.found true keyMaterial
        key_name key_file_path = Except.ok [] ∧
    create_keypair_if_not_exists KeyPairLookup.found false keyMaterial
        key_name key_file_path = Except.ok [KpEffect.warnLocalMissing] :=
  ⟨rfl, rfl⟩

/-- C8: when the remote key pair does not exist (lookup raised
`InvalidKeyPair.NotFound`), `create_keypair_if_not_exists` creates the key,
writes the returned private-key material to the local file opened with mode
`0o600`, and then chmods the file to `0o400`, in that order, regardless of
whether a local file already existed. -/
theorem create_keypair_creates_and_restricts
    (localExists : Bool) (keyMaterial key_name key_file_path : String) :
    create_keypair_if_not_exists KeyPairLookup.notFoundError localExists
        keyMaterial key_name key_file_path
      = Except.ok [KpEffect.createKeyPair key_name,
                   KpEffect.writeFileWithMode key_file_path 0o600 keyMaterial,
                   KpEffect.chmod key_file_path 0o400] := rfl

/-- C6 counterexample: the claim says every successful HTTP response yields
the trimmed body with "/32" appended, but for the successful body
"10.0.0.0/8" (which already contains a '/') the code returns it unchanged,
not with "/32" appended. -/
theorem get_my_public_ip_no_suffix_counterexample :
    (get_my_public_ip (Except.ok "10.0.0.0/8")).1 ≠ pyStrip "10.0.0.0/8" ++ "/32" := by
  decide

/-- C6 (amended): `get_my_public_ip` never raises; on a successful HTTP
response it returns the trimmed body, appending "/32" exactly when the
trimmed body does not already contain '/'; on any failure it returns
"0.0.0.0/0" and emits the warning; consequently, when the lookup throws,
the SSH ingress rule handed to the EC2 security group carries CIDR
"0.0.0.0/0". -/
theorem get_my_public_ip_fallback (body e : String) :
    get_my_public_ip (Except.ok body)
      = (if (pyStrip body).data.contains '/' then pyStrip body
         else pyStrip body ++ "/32", false) ∧
    get_my_public_ip (Except.error e) = ("0.0.0.0/0", true) ∧
    ec2_ingress_rules (get_my_public_ip (Except.error e)).1
      = [⟨none, SSH_PORT, SSH_PORT, ["0.0.0.0/0"]⟩,
         ⟨none, HTTP_PORT, HTTP_PORT, ["0.0.0.0/0"]⟩] :=
  ⟨rfl, rfl, rfl⟩

/-! Helper lemmas about the health-polling loop. -/

theorem waitLoop_stop (probe : Nat → Option String) (T e k : Nat) (h : ¬ e < T) :
    waitLoop probe T e k = ⟨false, k, k⟩ := by
  rw [waitLoop]
  simp [h]

theorem waitLoop_healthy (probe : Nat → Option String) (T e k : Nat) (h : e < T)
    (hp : probe k = some "healthy") :
    waitLoop probe T e k = ⟨true, k + 1, k⟩ := by
  rw [waitLoop]
  simp [h, hp]

theorem waitLoop_step (probe : Nat → Option String) (T e k : Nat) (h : e < T)
    (hp : probe k ≠ some "healthy") :
    waitLoop probe T e k = waitLoop probe T (e + 6) (k + 1) := by
  rw [waitLoop]
  cases hpk : probe k with
  | none => simp [h]
  | some s =>
      have hs : ¬ s = "healthy" := by
        intro hc
        exact hp (hc ▸ hpk)
      simp [h, hs]

/-- Running the loop from iteration `k` (elapsed `6 * k`): if iteration `j` is
the first at which the probe reports healthy and it still happens inside the
timeout, the loop returns true right there, having probed `j + 1` times and
slept `j` times. -/
theorem waitLoop_first_healthy (probe : Nat → Option String) (T : Nat) :
    ∀ n k j, j - k = n → k ≤ j → 6 * j < T → probe j = some "healthy" →
      (∀ i, k ≤ i → i < j → probe i ≠ some "healthy") →
      waitLoop probe T (6 * k) k = ⟨true, j + 1, j⟩ := by
  intro n
  induction n with
  | zero =>
      intro k j hn hkj hT hp _
      have hkj2 : k = j := by omega
      subst hkj2
      exact waitLoop_healthy probe T _ k (by omega) hp
  | succ n ih =>
      intro k j hn hkj hT hp hbef
      have hk : k < j := by omega
      have h6 : 6 * k < T := by omega
      rw [waitLoop_step probe T (6 * k) k h6 (hbef k le_rfl hk)]
      have e6 : 6 * k + 6 = 6 * (k + 1) := by ring
      rw [e6]
      exact ih (k + 1) j (by omega) (by omega) hT hp
        (fun i h1 h2 => hbef i (by omega) h2)

/-- Running the loop from iteration `k` (elapsed `6 * k`): if no probe inside
the timeout window ever reports healthy, the loop returns false after probing
and sleeping exactly up to the first iteration whose start time has reached
the timeout. -/
theorem waitLoop_never_healthy (probe : Nat → Option String) (T : Nat)
    (hnever : ∀ i, 6 * i < T → probe i ≠ some "healthy") :
    ∀ n k, T ≤ 6 * k + n →
      waitLoop probe T (6 * k) k
        = ⟨false, max k ((T + 5) / 6), max k ((T + 5) / 6)⟩ := by
  intro n
  induction n with
  | zero =>
      intro k hT
      have h1 : ¬ 6 * k < T := by omega
      have h2 : max k ((T + 5) / 6) = k := by omega
      rw [waitLoop_stop probe T _ k h1, h2]
  | succ n ih =>
      intro k hT
      by_cases h : 6 * k < T
      · rw [waitLoop_step probe T (6 * k) k h (hnever k h)]
        have e6 : 6 * k + 6 = 6 * (k + 1) := by ring
        rw [e6, ih (k + 1) (by omega)]
        have hmax : max (k + 1) ((T + 5) / 6) = max k ((T + 5) / 6) := by omega
        rw [hmax]
      · have h2 : max k ((T + 5) / 6) = k := by omega
        rw [waitLoop_stop probe T _ k h, h2]

/-- Bound on the number of probes the loop performs from iteration `k`. -/
theorem waitLoop_probes_le (probe : Nat → Option String) (T : Nat) :
    ∀ n k, T ≤ 6 * k + n →
      (waitLoop probe T (6 * k) k).probes ≤ max k ((T + 5) / 6) := by
  intro n
  induction n with
  | zero =>
      intro k h
      rw [waitLoop_stop probe T _ k (by omega)]
      show k ≤ max k ((T + 5) / 6)
      omega
  | succ n ih =>
      intro k h
      by_cases hlt : 6 * k < T
      · cases hp : probe k with
        | some s =>
            by_cases hs : s = "healthy"
            · rw [waitLoop_healthy probe T _ k hlt (by rw [hp, hs])]
              show k + 1 ≤ max k ((T + 5) / 6)
              omega
            · rw [waitLoop_step probe T _ k hlt
                (by rw [hp]; intro hc; exact hs (by injection hc))]
              have e6 : 6 * k + 6 = 6 * (k + 1) := by ring
              rw [e6]
              exact le_trans (ih (k + 1) (by omega)) (by omega)
        | none =>
            rw [waitLoop_step probe T _ k hlt (by rw [hp]; intro hc; cases hc)]
            have e6 : 6 * k + 6 = 6 * (k + 1) := by ring
            rw [e6]
            exact le_trans (ih (k + 1) (by omega)) (by omega)
      · rw [waitLoop_stop probe T _ k hlt]
        show k ≤ max k ((T + 5) / 6)
        omega

/-- C3: `wait_for_targets_healthy` returns true at the first probe that
reports "healthy" (probing `j + 1` times and sleeping only `j` times — no
sleep after that probe); and when no probe issued before the timeout reports
"healthy", it returns false after exactly `⌈T/6⌉` probes: the iteration whose
elapsed time equals the timeout is never entered, so no further probe is
issued once elapsed reaches the timeout. -/
theorem wait_for_targets_healthy_first_healthy_or_timeout
    (probe : Nat → Option String) (T j : Nat) :
    (6 * j < T → probe j = some "healthy" →
      (∀ i, i < j → probe i ≠ some "healthy") →
      wait_for_targets_healthy probe T = ⟨true, j + 1, j⟩) ∧
    ((∀ i, 6 * i < T → probe i ≠ some "healthy") →
      wait_for_targets_healthy probe T = ⟨false, (T + 5) / 6, (T + 5) / 6⟩) := by
  constructor
  · intro hT hp hbef
    have h := waitLoop_first_healthy probe T j 0 j rfl (Nat.zero_le j) hT hp
      (fun i _ h2 => hbef i h2)
    simpa [wait_for_targets_healthy] using h
  · intro hnever
    have h := waitLoop_never_healthy probe T hnever T 0 (by omega)
    simpa [wait_for_targets_healthy] using h

/-- Probe sequence for the C3 witness, healthy branch: first report is
"initial", second is "healthy". -/
def probeSeqA : Nat → Option String := fun k =>
  if k = 0 then some "initial" else if k = 1 then some "healthy" else none

/-- Probe sequence for the C3 witness, timeout branch: the
`TargetHealthDescriptions` list is always empty. -/
def probeSeqB : Nat → Option String := fun _ => none

/-- Witness for C3: with `probeSeqA` and timeout 30 the loop returns true at
the second probe with one sleep; with `probeSeqB` and timeout 13 the loop
returns false after `⌈13/6⌉ = 3` probes. -/
theorem wait_for_targets_healthy_witness :
    (6 * 1 < 30 ∧ probeSeqA 1 = some "healthy" ∧
      (∀ i, i < 1 → probeSeqA i ≠ some "healthy") ∧
      wait_for_targets_healthy probeSeqA 30 = ⟨true, 2, 1⟩) ∧
    ((∀ i, 6 * i < 13 → probeSeqB i ≠ some "healthy") ∧
      wait_for_targets_healthy probeSeqB 13 = ⟨false, 3, 3⟩) :=
  ⟨⟨by decide, rfl, by decide,
    (wait_for_targets_healthy_first_healthy_or_timeout probeSeqA 30 1).1
      (by decide) rfl (by decide)⟩,
   ⟨fun i _ => by simp [probeSeqB],
    (wait_for_targets_healthy_first_healthy_or_timeout probeSeqB 13 0).2
      (fun i _ => by simp [probeSeqB])⟩⟩

/-- C9: the polling loop always terminates (the embedding is a total
function) and, for every non-negative timeout, issues at most
`⌈timeout / 6⌉` probes — each iteration adds exactly 6 to the elapsed
counter. -/
theorem wait_for_targets_healthy_probe_bound
    (probe : Nat → Option String) (T : Nat) :
    (wait_for_targets_healthy probe T).probes ≤ (T + 5) / 6 := by
  have h := waitLoop_probes_le probe T T 0 (by omega)
  simpa [wait_for_targets_healthy] using h

/-! Helper lemmas about the AMI selection. -/

theorem pyStrLt_irrefl : ∀ x : List Char, pyStrLt x x = false := by
  intro x
  induction x with
  | nil => rfl
  | cons c cs ih => simp [pyStrLt, ih]

theorem pyStrLe_refl (s : String) : pyStrLe s s = true := by
  simp [pyStrLe, pyStrLt_irrefl]

/-- The head of the descending-sorted pool is a pool member whose sort key is
maximal (w.r.t. the embedded Python string comparison). -/
theorem sortedImages_head_max (images : List Image) (h : images ≠ []) :
    ∃ img, img ∈ images ∧ (sortedImages images).headD ⟨"", none, none⟩ = img ∧
      ∀ j ∈ images, pyStrLe (imageSortKey j) (imageSortKey img) = true := by
  have hperm := List.perm_insertionSort imageOrder images
  cases hs : sortedImages images with
  | nil =>
      exfalso
      apply h
      have hlen := hperm.length_eq
      rw [show List.insertionSort imageOrder images = sortedImages images from rfl,
        hs] at hlen
      exact List.eq_nil_of_length_eq_zero hlen.symm
  | cons img rest =>
      have hsorted := List.sorted_insertionSort imageOrder images
      rw [show List.insertionSort imageOrder images = sortedImages images from rfl,
        hs] at hsorted
      have hrest : ∀ b ∈ rest, imageOrder img b := List.rel_of_sorted_cons hsorted
      have hmems : img ∈ sortedImages images := by
        rw [hs]
        exact List.mem_cons_self img rest
      have hmem : img ∈ images := by
        rw [show sortedImages images = List.insertionSort imageOrder images from rfl]
          at hmems
        exact hperm.mem_iff.mp hmems
      refine ⟨img, hmem, rfl, ?_⟩
      intro j hj
      have hjs : j ∈ sortedImages images := by
        rw [show sortedImages images = List.insertionSort imageOrder images from rfl]
        exact hperm.mem_iff.mpr hj
      rw [hs] at hjs
      rcases List.mem_cons.mp hjs with hje | hjr
      · rw [hje]
        exact pyStrLe_refl _
      · exact hrest j hjr

/-- C4: for every non-empty pool of images collected across all name
patterns, `find_amzn2023_ami` returns the ImageId of a pooled image whose
creation timestamp (the sort key, missing `CreationDate` read as `""`) is
maximal — the pooled images are sorted descending and the head is chosen. -/
theorem find_amzn2023_ami_latest
    (describeImages : String → Except String (List Image))
    (ssmParameter : Except String String)
    (h : collectImages describeImages ≠ []) :
    ∃ img, img ∈ collectImages describeImages ∧
      find_amzn2023_ami describeImages ssmParameter
        = (AmiOutcome.fromImages img.imageId, 0) ∧
      ∀ j ∈ collectImages describeImages,
        pyStrLe (imageSortKey j) (imageSortKey img) = true := by
  obtain ⟨img, hmem, hhead, hmax⟩ := sortedImages_head_max (collectImages describeImages) h
  refine ⟨img, hmem, ?_, hmax⟩
  have hne : (collectImages describeImages).isEmpty = false := by
    cases hc : collectImages describeImages with
    | nil => exact absurd hc h
    | cons a l => rfl
  simp only [find_amzn2023_ami, hne, Bool.false_eq_true, if_false, hhead]

/-- Images returned by the image-describe oracle of the C4 witness. -/
def describeSeqW : String → Except String (List Image) := fun pat =>
  if pat = "*al2023*" then
    Except.ok [⟨"ami-old", some "al2023-a", some "2023-01-01T00:00:00.000Z"⟩,
               ⟨"ami-new", some "al2023-b", some "2024-05-05T00:00:00.000Z"⟩]
  else Except.ok []

/-- Witness for C4: a two-image pool where the 2024 image is selected. -/
theorem find_amzn2023_ami_latest_witness :
    collectImages describeSeqW ≠ [] ∧
    ∃ img, img ∈ collectImages describeSeqW ∧
      find_amzn2023_ami describeSeqW (Except.ok "ami-fallback")
        = (AmiOutcome.fromImages img.imageId, 0) ∧
      ∀ j ∈ collectImages describeSeqW,
        pyStrLe (imageSortKey j) (imageSortKey img) = true :=
  ⟨by decide,
   find_amzn2023_ami_latest describeSeqW (Except.ok "ami-fallback") (by decide)⟩

/-- C5: when no name pattern matched any image (the pooled list is empty),
`find_amzn2023_ami` performs the SSM parameter-store fallback lookup exactly
once; if it succeeds the parameter value is returned, and if it raises the
whole process terminates with `SystemExit` — with still exactly one fallback
lookup, i.e. no further fallback is attempted. -/
theorem find_amzn2023_ami_ssm_fallback
    (describeImages : String → Except String (List Image))
    (ssmParameter : Except String String)
    (h : collectImages describeImages = []) :
    (∀ v, ssmParameter = Except.ok v →
      find_amzn2023_ami describeImages ssmParameter
        = (AmiOutcome.fromSsmFallback v, 1)) ∧
    (∀ e, ssmParameter = Except.error e →
      find_amzn2023_ami describeImages ssmParameter
        = (AmiOutcome.systemExit
            ("Failed to find AL2023 or fallback AMI. Error: " ++ e), 1)) := by
  constructor <;> intro x hx <;> subst hx <;> simp [find_amzn2023_ami, h]

/-- Witness for C5: every pattern lookup raises (so the pool is empty), and
the two SSM outcomes are exercised at concrete values. -/
theorem find_amzn2023_ami_ssm_fallback_witness :
    collectImages (fun _ => Except.error "boom") = [] ∧
    find_amzn2023_ami (fun _ => Except.error "boom") (Except.ok "ami-al2")
      = (AmiOutcome.fromSsmFallback "ami-al2", 1) ∧
    find_amzn2023_ami (fun _ => Except.error "boom") (Except.error "ssm down")
      = (AmiOutcome.systemExit
          ("Failed to find AL2023 or fallback AMI. Error: " ++ "ssm down"), 1) :=
  ⟨by decide,
   (find_amzn2023_ami_ssm_fallback (fun _ => Except.error "boom")
      (Except.ok "ami-al2") (by decide)).1 "ami-al2" rfl,
   (find_amzn2023_ami_ssm_fallback (fun _ => Except.error "boom")
      (Except.error "ssm down") (by decide)).2 "ssm down" rfl⟩

/-- Image-describe oracle of the C10 counterexample: the pool holds an image
lacking `CreationDate` before an image whose `CreationDate` is present but
equal to `""`. -/
def describeTie : String → Except String (List Image) := fun pat =>
  if pat = "*amzn-2023*" then
    Except.ok [⟨"ami-nodate", none, none⟩, ⟨"ami-dated", some "al2023", some ""⟩]
  else Except.ok []

/-- C10 counterexample: a pooled image carries a `CreationDate` (the empty
string), yet the selected result (`images[0]` after the stable descending
sort) is the image lacking a `CreationDate`: both sort as key `""`, the tie
keeps the original pool order, so an absent `CreationDate` is not strictly
smaller than every present one and the claim's "never the selected result"
fails. -/
theorem selected_image_absent_date_counterexample :
    (⟨"ami-dated", some "al2023", some ""⟩ : Image) ∈ collectImages describeTie ∧
    (some "" : Option String).isSome = true ∧
    selected_image describeTie = some ⟨"ami-nodate", none, none⟩ ∧
    (⟨"ami-nodate", none, none⟩ : Image).creationDate = none := by
  decide

/-- C10 (amended): an image whose `CreationDate` field is absent sorts as the
empty string, so whenever at least one pooled image carries a non-empty
`CreationDate`, an image lacking one is never the selected result. -/
theorem selected_image_has_date
    (describeImages : String → Except String (List Image)) (b : Image) (s : String)
    (hb : b ∈ collectImages describeImages) (hbs : b.creationDate = some s)
    (hs : s ≠ "") :
    ∀ sel, selected_image describeImages = some sel → sel.creationDate ≠ none := by
  intro sel hsel hnone
  have hne : collectImages describeImages ≠ [] := by
    intro hnil
    rw [hnil] at hb
    cases hb
  obtain ⟨img, _, hhead, hmax⟩ := sortedImages_head_max (collectImages describeImages) hne
  have hEmpty : (collectImages describeImages).isEmpty = false := by
    cases hc : collectImages describeImages with
    | nil => exact absurd hc hne
    | cons a l => rfl
  have hsel2 : sel = img := by
    rw [selected_image] at hsel
    simp only [hEmpty, Bool.false_eq_true, if_false, Option.some.injEq] at hsel
    rw [← hsel, hhead]
  have hkey : pyStrLe (imageSortKey b) (imageSortKey img) = true := hmax b hb
  have hkb : imageSortKey b = s := by
    simp [imageSortKey, hbs]
  have hki : imageSortKey img = "" := by
    rw [← hsel2]
    simp [imageSortKey, hnone]
  rw [hkb, hki] at hkey
  have hdata : s.data ≠ [] := by
    intro hd
    exact hs (String.ext hd)
  cases hcs : s.data with
  | nil => exact hdata hcs
  | cons c cs =>
      rw [pyStrLe] at hkey
      have : pyStrLt ("" : String).data s.data = true := by
        rw [hcs]
        rfl
      rw [this] at hkey
      cases hkey

/-- Image-describe oracle of the C10 witness: one dated image after one
undated image. -/
def describeDated : String → Except String (List Image) := fun pat =>
  if pat = "*amzn-2023*" then
    Except.ok [⟨"ami-nodate", none, none⟩, ⟨"ami-dated", none, some "2024-01-01"⟩]
  else Except.ok []

/-- Witness for C10 (amended): with a pool holding a genuinely dated image,
the selected image carries a `CreationDate`. -/
theorem selected_image_has_date_witness :
    (⟨"ami-dated", none, some "2024-01-01"⟩ : Image) ∈ collectImages describeDated ∧
    (⟨"ami-dated", none, some "2024-01-01"⟩ : Image).creationDate = some "2024-01-01" ∧
    ("2024-01-01" : String) ≠ "" ∧
    (∀ sel, selected_image describeDated = some sel → sel.creationDate ≠ none) :=
  ⟨by decide, rfl, by decide,
   selected_image_has_date describeDated ⟨"ami-dated", none, some "2024-01-01"⟩
     "2024-01-01" (by decide) rfl (by decide)⟩

/-- C7: the process exit-code contract of `main`: an uncaught `SystemExit`
(non-zero exit) when the default-VPC lookup finds nothing or the subnet
lookup finds nothing; exit code 1 when the instance-creation/wait block
raises; and exit code 0 on reaching the final success print — in particular
a health-check timeout is non-fatal and only sets the advisory message flag
(the advisory is printed exactly when the wait did not report healthy). -/
theorem main_exit_codes (env : AwsEnv) :
    (env.defaultVpcs = [] →
      main env = ⟨ExitOutcome.fatalSystemExit
        "No default VPC found in region. Script expects a default VPC.", false⟩) ∧
    (∀ v vs, env.defaultVpcs = v :: vs → env.subnetsByVpc v = [] →
      main env = ⟨ExitOutcome.fatalSystemExit "No subnets found in default VPC.", false⟩) ∧
    (∀ v vs, env.defaultVpcs = v :: vs → env.subnetsByVpc v ≠ [] →
      (create_keypair_if_not_exists env.keypairLookup env.localKeyExists
          env.keyMaterial KEY_NAME KEY_FILE).isOk = true →
      ((find_amzn2023_ami env.describeImages env.ssmParameter).1).isSystemExit = false →
      (∀ e, env.runInstance = Except.error e →
        main env = ⟨ExitOutcome.exitFailure, false⟩) ∧
      (∀ iid, env.runInstance = Except.ok iid →
        main env = ⟨ExitOutcome.success,
          !(wait_for_targets_healthy env.probe 240).healthy⟩)) := by
  refine ⟨?_, ?_, ?_⟩
  · intro h
    simp [main, get_default_vpc, h]
  · intro v vs hv hs
    simp [main, get_default_vpc, hv, get_subnets_for_vpc, hs]
  · intro v vs hv hs hkp hami
    have hsubE : (env.subnetsByVpc v).isEmpty = false := by
      cases hsv : env.subnetsByVpc v with
      | nil => exact absurd hsv hs
      | cons a l => rfl
    cases hk : create_keypair_if_not_exists env.keypairLookup env.localKeyExists
        env.keyMaterial KEY_NAME KEY_FILE with
    | error msg =>
        rw [hk] at hkp
        simp [Except.isOk, Except.toBool] at hkp
    | ok effs =>
        cases hfind : find_amzn2023_ami env.describeImages env.ssmParameter with
        | mk out cnt =>
            cases out with
            | systemExit msg =>
                rw [hfind] at hami
                simp [AmiOutcome.isSystemExit] at hami
            | fromImages a =>
                constructor
                · intro e he
                  simp [main, get_default_vpc, hv, get_subnets_for_vpc, hsubE,
                    hk, hfind, he]
                · intro iid hi
                  simp [main, get_default_vpc, hv, get_subnets_for_vpc, hsubE,
                    hk, hfind, hi]
            | fromSsmFallback valu =>
                constructor
                · intro e he
                  simp [main, get_default_vpc, hv, get_subnets_for_vpc, hsubE,
                    hk, hfind, he]
                · intro iid hi
                  simp [main, get_default_vpc, hv, get_subnets_for_vpc, hsubE,
                    hk, hfind, hi]

/-- C7 witness environment: no default VPC. -/
def envNoVpc : AwsEnv :=
  { http := Except.ok "1.2.3.4"
    defaultVpcs := []
    subnetsByVpc := fun _ => ["subnet-a"]
    keypairLookup := KeyPairLookup.found
    localKeyExists := true
    keyMaterial := "PEM"
    existingSgs := fun _ => []
    newSgId := fun n => n ++ "-id"
    describeImages := fun _ => Except.ok [⟨"ami-1", some "al2023", some "2024-01-01"⟩]
    ssmParameter := Except.ok "ami-fb"
    runInstance := Except.ok "i-1"
    probe := fun _ => none
    tgArn := "tg-arn"
    albArn := "alb-arn"
    albDns := "alb.example"
    listenerArn := "l-arn" }

/-- C7 witness environment: a default VPC without subnets. -/
def envNoSubnets : AwsEnv :=
  { envNoVpc with defaultVpcs := ["vpc-1"], subnetsByVpc := fun _ => [] }

/-- C7 witness environment: instance creation raises. -/
def envLaunchFails : AwsEnv :=
  { envNoVpc with defaultVpcs := ["vpc-1"],
                  runInstance := Except.error "InsufficientInstanceCapacity" }

/-- C7 witness environment: everything succeeds but the target never becomes
healthy before the 240-second timeout. -/
def envTimeoutRun : AwsEnv :=
  { envNoVpc with defaultVpcs := ["vpc-1"] }

/-- Witness for C7 at the four concrete environments: missing default VPC
and missing subnets exit via `SystemExit`, a failed launch exits 1, and a
run whose health check times out still ends in success with the advisory
printed. -/
theorem main_exit_codes_witness :
    main envNoVpc = ⟨ExitOutcome.fatalSystemExit
      "No default VPC found in region. Script expects a default VPC.", false⟩ ∧
    main envNoSubnets = ⟨ExitOutcome.fatalSystemExit
      "No subnets found in default VPC.", false⟩ ∧
    main envLaunchFails = ⟨ExitOutcome.exitFailure, false⟩ ∧
    main envTimeoutRun = ⟨ExitOutcome.success, true⟩ := by
  refine ⟨(main_exit_codes envNoVpc).1 rfl,
    (main_exit_codes envNoSubnets).2.1 "vpc-1" [] rfl rfl, ?_, ?_⟩
  · exact ((main_exit_codes envLaunchFails).2.2 "vpc-1" [] rfl (by decide)
      (by decide) (by decide)).1 "InsufficientInstanceCapacity" rfl
  · have h := ((main_exit_codes envTimeoutRun).2.2 "vpc-1" [] rfl (by decide)
      (by decide) (by decide)).2 "i-1" rfl
    rw [h]
    have hw : wait_for_targets_healthy envTimeoutRun.probe 240
        = ⟨false, max 0 ((240 + 5) / 6), max 0 ((240 + 5) / 6)⟩ :=
      waitLoop_never_healthy envTimeoutRun.probe 240
        (fun i _ => by simp [envTimeoutRun, envNoVpc]) 240 0 (by omega)
    rw [hw]
    rfl

end MosoInterior
